import Mathlib

/-!
Shallow embedding of `src/sistema_unificado.py`, a demonstration of five
structural design patterns (Adapter, Facade, Decorator, Composite, Proxy).
Every observable effect of the Python program is a printed line; methods are
embedded as pure functions returning the ordered list of events (printed
lines and delegated calls) they produce.
-/

namespace SistemaUnificado

/-! Decorator group (`MessageComponent`, lines 46-68)

A decorator chain is an acyclic nest of wrappers terminating at the base
sender, so it is exactly the inductive type below: `basic` embeds
`BasicMessage`, `encryption c` embeds `EncryptionDecorator(component=c)`,
`compression c` embeds `CompressionDecorator(component=c)`. -/

inductive MessageComponent : Type
  | basic : MessageComponent
  | encryption (component : MessageComponent) : MessageComponent
  | compression (component : MessageComponent) : MessageComponent
deriving DecidableEq, Repr

/-- Python `message[::-1]`: reverse the character sequence. -/
def pyReverse (message : String) : String :=
  String.mk message.data.reverse

/-- Python `message[:10]`: at most the first 10 characters. -/
def pyTake10 (message : String) : String :=
  String.mk (message.data.take 10)

/-- Embeds `EncryptionDecorator.__init__`, lines 55-56: stores the inner
component, prints nothing. -/
def EncryptionDecorator.init (component : MessageComponent) :
    MessageComponent × List String :=
  (.encryption component, [])

/-- Embeds `CompressionDecorator.__init__`, lines 63-64: stores the inner
component, prints nothing. -/
def CompressionDecorator.init (component : MessageComponent) :
    MessageComponent × List String :=
  (.compression component, [])

/-- Embeds `BasicMessage()` construction (no `__init__` body, line 50):
prints nothing. -/
def BasicMessage.init : MessageComponent × List String :=
  (.basic, [])

/-- Embeds `EncryptionDecorator.send`, line 59: the transformed text
`f"<encriptado>{message[::-1]}</encriptado>"`. -/
def encryptTransform (message : String) : String :=
  "<encriptado>" ++ pyReverse message ++ "</encriptado>"

/-- Embeds `CompressionDecorator.send`, line 67: the transformed text
`f"<comprimido>{message[:10]}...</comprimido>"`. -/
def compressTransform (message : String) : String :=
  "<comprimido>" ++ pyTake10 message ++ "...</comprimido>"

/-- Embeds `send` on a chain: `BasicMessage.send` prints `f"[Mensaje] {message}"`
(line 52); each decorator transforms the text and delegates to its inner
component (lines 58-60, 66-68). Returns the printed lines, in order. -/
def MessageComponent.send : MessageComponent → String → List String
  | .basic, message => ["[Mensaje] " ++ message]
  | .encryption component, message => component.send (encryptTransform message)
  | .compression component, message => component.send (compressTransform message)

/-- The text that finally reaches the base sender at the end of the chain. -/
def deliveredToBase : MessageComponent → String → String
  | .basic, message => message
  | .encryption component, message => deliveredToBase component (encryptTransform message)
  | .compression component, message => deliveredToBase component (compressTransform message)

theorem send_eq_deliveredToBase (c : MessageComponent) (m : String) :
    c.send m = ["[Mensaje] " ++ deliveredToBase c m] := by
  induction c generalizing m with
  | basic => rfl
  | encryption component ih => simpa [MessageComponent.send, deliveredToBase] using ih _
  | compression component ih => simpa [MessageComponent.send, deliveredToBase] using ih _

/-- Modelled from the spec: the encryption wrapping as the spec's §4.3 words
it, `<encrypted>{reversed}</encrypted>` (the source writes the tag in
Spanish). Used only to compare spec wording against the source. -/
def encryptTransformSpec (message : String) : String :=
  "<encrypted>" ++ pyReverse message ++ "</encrypted>"

/-- Modelled from the spec: the compression wrapping as the spec's §4.3 words
it, `<compressed>{prefix}...</compressed>` (the source writes the tag in
Spanish). Used only to compare spec wording against the source. -/
def compressTransformSpec (message : String) : String :=
  "<compressed>" ++ pyTake10 message ++ "...</compressed>"

/-! Observable events of the other groups

`printed s` is a line written to standard output; the remaining constructors
mark a delegated call to the named collaborator (the call's own prints follow
as `printed` events). `realRead`/`realWrite` carry the allocation id of the
`RealDatabase` instance being invoked. -/

inductive Event : Type
  | printed (line : String) : Event
  | externalSend (amount : Int) : Event
  | generateCall (user : String) (amount : Int) : Event
  | saveInvoiceCall (user : String) (amount : Int) : Event
  | senderSendCall (message : String) : Event
  | realRead (db : Nat) : Event
  | realWrite (db : Nat) : Event
deriving DecidableEq, Repr

/-! Adapter group (lines 4-18) -/

structure ExternalPaymentAPI : Type where

/-- Embeds `ExternalPaymentAPI.send_payment`, lines 5-6. -/
def ExternalPaymentAPI.send_payment (_api : ExternalPaymentAPI) (amount : Int) : List Event :=
  [.externalSend amount, .printed ("[API Externa] Pago enviado por $" ++ toString amount)]

structure PaymentAdapter : Type where
  external_api : ExternalPaymentAPI

/-- Embeds `PaymentAdapter.__init__`, lines 13-14: stores the reference, prints nothing. -/
def PaymentAdapter.init (external_api : ExternalPaymentAPI) : PaymentAdapter × List Event :=
  ({ external_api := external_api }, [])

/-- Embeds `PaymentAdapter.pay`, lines 16-18. -/
def PaymentAdapter.pay (p : PaymentAdapter) (amount : Int) : List Event :=
  .printed "[Adapter] Adaptando interfaz interna a API externa..."
    :: p.external_api.send_payment amount

/-! Facade group (lines 21-43) -/

structure InvoiceGenerator : Type where

structure Database : Type where

structure MessageSender : Type where

/-- Embeds `InvoiceGenerator.generate`, lines 22-23. -/
def InvoiceGenerator.generate (_g : InvoiceGenerator) (user : String) (amount : Int) :
    List Event :=
  [.generateCall user amount,
   .printed ("[Factura] Generando factura para " ++ user ++ " por $" ++ toString amount)]

/-- Embeds `Database.save_invoice`, lines 26-27. -/
def Database.save_invoice (_d : Database) (user : String) (amount : Int) : List Event :=
  [.saveInvoiceCall user amount,
   .printed ("[BD] Guardando factura de " ++ user ++ " por $" ++ toString amount)]

/-- Embeds `MessageSender.send`, lines 30-31. -/
def MessageSender.send (_s : MessageSender) (message : String) : List Event :=
  [.senderSendCall message, .printed ("[Mensaje] Enviado: " ++ message)]

structure BillingFacade : Type where
  generator : InvoiceGenerator
  database : Database
  sender : MessageSender

/-- Embeds `BillingFacade.__init__`, lines 34-37: builds the three collaborators,
prints nothing. -/
def BillingFacade.init : BillingFacade × List Event :=
  ({ generator := {}, database := {}, sender := {} }, [])

/-- Embeds `BillingFacade.process_billing`, lines 39-43. -/
def BillingFacade.process_billing (f : BillingFacade) (user : String) (amount : Int) :
    List Event :=
  .printed "[Fachada] Procesando facturación..."
    :: (f.generator.generate user amount
        ++ f.database.save_invoice user amount
        ++ f.sender.send ("Factura generada para " ++ user ++ " por $" ++ toString amount))

/-! Proxy group (lines 95-113)

`RealDatabase` instances are identified by an allocation id; constructing a
`DatabaseProxy` consumes the next fresh id for its own store (line 102
`self.database = RealDatabase()`). -/

/-- Embeds `RealDatabase.read`, line 96, invoked on store `db`. -/
def RealDatabase.read (db : Nat) : List Event :=
  [.realRead db, .printed "[BD] Leyendo datos..."]

/-- Embeds `RealDatabase.write`, line 97, invoked on store `db`. -/
def RealDatabase.write (db : Nat) : List Event :=
  [.realWrite db, .printed "[BD] Escribiendo datos..."]

structure DatabaseProxy : Type where
  user_type : String
  database : Nat

/-- Embeds `DatabaseProxy.__init__`, lines 100-102: takes only the role, allocates a
fresh `RealDatabase` (the next unused id), prints nothing. Returns the proxy,
the next fresh id, and the (empty) list of construction-time events. -/
def DatabaseProxy.init (user_type : String) (fresh : Nat) :
    DatabaseProxy × Nat × List Event :=
  ({ user_type := user_type, database := fresh }, fresh + 1, [])

/-- Embeds `DatabaseProxy.read`, lines 104-106. -/
def DatabaseProxy.read (p : DatabaseProxy) : List Event :=
  .printed ("[Proxy] Usuario '" ++ p.user_type ++ "' accediendo a lectura.")
    :: RealDatabase.read p.database

/-- Embeds `DatabaseProxy.write`, lines 108-113. -/
def DatabaseProxy.write (p : DatabaseProxy) : List Event :=
  if p.user_type = "admin" then
    .printed ("[Proxy] Usuario '" ++ p.user_type ++ "' escribiendo...")
      :: RealDatabase.write p.database
  else
    [.printed "[Proxy] Acceso denegado para escritura."]

/-! Composite group (`UIComponent`, lines 71-92) -/

inductive UIComponent : Type
  | button (label : String) : UIComponent
  | textField (name : String) : UIComponent
  | panel (children : List UIComponent) : UIComponent

/-- Python `" " * depth`. -/
def indent (depth : Nat) : String :=
  String.mk (List.replicate depth ' ')

mutual

/-- Embeds `render`, lines 77, 81, 89-92: a leaf prints one indented line; a panel
prints `[Panel]` at its own depth then renders each child, in insertion
order, at `depth + 2`. Returns the printed lines, in order. -/
def UIComponent.render : UIComponent → Nat → List String
  | .button label, depth => [indent depth ++ "[Botón: " ++ label ++ "]"]
  | .textField name, depth => [indent depth ++ "[Campo de Texto: " ++ name ++ "]"]
  | .panel children, depth =>
      (indent depth ++ "[Panel]") :: renderChildren children (depth + 2)

/-- The `for c in self.children: c.render(depth + 2)` loop of lines 91-92. -/
def renderChildren : List UIComponent → Nat → List String
  | [], _ => []
  | c :: rest, depth => UIComponent.render c depth ++ renderChildren rest depth

end

/-- Embeds `Panel.add`, line 87: construction starts with an
empty child list and `add` appends; neither prints. -/
def Panel.add (children : List UIComponent) (component : UIComponent) :
    List UIComponent × List Event :=
  (children ++ [component], [])

/-- Embeds `Panel.__init__`, lines 84-85. -/
def Panel.init : UIComponent × List Event :=
  (.panel [], [])

/-- Embeds `Button.__init__`, line 76. -/
def Button.init (label : String) : UIComponent × List Event :=
  (.button label, [])

/-- Embeds `TextField.__init__`, line 80. -/
def TextField.init (name : String) : UIComponent × List Event :=
  (.textField name, [])

mutual

/-- Number of nodes of a tree. -/
def UIComponent.size : UIComponent → Nat
  | .button _ => 1
  | .textField _ => 1
  | .panel children => 1 + sizeChildren children

def sizeChildren : List UIComponent → Nat
  | [] => 0
  | c :: rest => UIComponent.size c + sizeChildren rest

end

/-! Auxiliary lemmas shared by the claim theorems. -/

mutual

theorem render_length_aux : ∀ (t : UIComponent) (depth : Nat),
    (UIComponent.render t depth).length = UIComponent.size t
  | .button _, _ => rfl
  | .textField _, _ => rfl
  | .panel children, depth => by
      simp [UIComponent.render, UIComponent.size,
        renderChildren_length_aux children (depth + 2)]
      omega

theorem renderChildren_length_aux : ∀ (cs : List UIComponent) (depth : Nat),
    (renderChildren cs depth).length = sizeChildren cs
  | [], _ => rfl
  | c :: rest, depth => by
      simp [renderChildren, sizeChildren, render_length_aux c depth,
        renderChildren_length_aux rest depth]

end

/-! Claim theorems. -/

/-- C1: each decorator's `send` applies its transformation to its input and
delegates the transformed text to the inner component, so transformations
apply outermost-first; wrapping base with Compression then Encryption
(Encryption outermost) and sending "HELLO WORLD" first reverses and wraps
the full string (encryption), then truncates the *encrypted* result to its
first 10 characters before wrapping (compression); swapping the decorator
order changes the text delivered to the base sender. -/
theorem decorator_chain_order (c : MessageComponent) (m : String) :
    (MessageComponent.encryption c).send m = c.send (encryptTransform m) ∧
    (MessageComponent.compression c).send m = c.send (compressTransform m) ∧
    c.send m = ["[Mensaje] " ++ deliveredToBase c m] ∧
    deliveredToBase (.encryption (.compression .basic)) "HELLO WORLD"
      = compressTransform (encryptTransform "HELLO WORLD") ∧
    encryptTransform "HELLO WORLD" = "<encriptado>DLROW OLLEH</encriptado>" ∧
    compressTransform (encryptTransform "HELLO WORLD")
      = "<comprimido><encriptad...</comprimido>" ∧
    deliveredToBase (.compression (.encryption .basic)) "HELLO WORLD"
      ≠ deliveredToBase (.encryption (.compression .basic)) "HELLO WORLD" :=
  ⟨rfl, rfl, send_eq_deliveredToBase c m, by decide, by decide, by decide, by decide⟩

/-- C2: `render` is a pre-order, depth-first, insertion-order traversal: a
leaf emits exactly one line indented by `depth` units, a Panel emits one line
for itself at `depth` then renders each child at `depth + 2`; the root Panel
containing [Button "Pagar", Panel [TextField "Nombre", TextField "Correo"]]
rendered at depth 0 emits the five expected lines in order. -/
theorem composite_render_traversal :
    (∀ label depth, UIComponent.render (.button label) depth
        = [indent depth ++ "[Botón: " ++ label ++ "]"]) ∧
    (∀ name depth, UIComponent.render (.textField name) depth
        = [indent depth ++ "[Campo de Texto: " ++ name ++ "]"]) ∧
    (∀ children depth, UIComponent.render (.panel children) depth
        = (indent depth ++ "[Panel]") :: renderChildren children (depth + 2)) ∧
    (∀ c rest depth, renderChildren (c :: rest) depth
        = UIComponent.render c depth ++ renderChildren rest depth) ∧
    UIComponent.render
        (.panel [.button "Pagar", .panel [.textField "Nombre", .textField "Correo"]]) 0
      = ["[Panel]",
         "  [Botón: Pagar]",
         "  [Panel]",
         "    [Campo de Texto: Nombre]",
         "    [Campo de Texto: Correo]"] :=
  ⟨fun _ _ => rfl, fun _ _ => rfl, fun _ _ => rfl, fun _ _ _ => rfl, by decide⟩

/-- C3 counterexample: the encryption decorator does not delegate
`<encrypted>{reversed}</encrypted>` (the spec's wording): at input "ab" the
string delegated to the base sender differs from that wording, because the
source tags are `<encriptado>...</encriptado>`. -/
theorem encryption_spec_tag_counterexample :
    (MessageComponent.encryption .basic).send "ab"
      ≠ MessageComponent.basic.send (encryptTransformSpec "ab") ∧
    encryptTransform "ab" ≠ encryptTransformSpec "ab" := by
  constructor <;> decide

/-- C3 amended: for every input text, the encryption decorator's `send`
reverses the character sequence of the input, wraps it as
`<encriptado>{reversed}</encriptado>`, and delegates exactly that string to
the inner component's `send`. -/
theorem encryption_send_reverses_and_wraps (c : MessageComponent) (text : String) :
    (MessageComponent.encryption c).send text = c.send (encryptTransform text) ∧
    (encryptTransform text).data
      = "<encriptado>".data ++ text.data.reverse ++ "</encriptado>".data :=
  ⟨rfl, rfl⟩

/-- C4 counterexample: the compression decorator does not delegate
`<compressed>{prefix}...</compressed>` (the spec's wording): at input "ab"
the string delegated to the base sender differs from that wording, because
the source tags are `<comprimido>...</comprimido>`. -/
theorem compression_spec_tag_counterexample :
    (MessageComponent.compression .basic).send "ab"
      ≠ MessageComponent.basic.send (compressTransformSpec "ab") ∧
    compressTransform "ab" ≠ compressTransformSpec "ab" := by
  constructor <;> decide

/-- C4 amended: for every input text, the compression decorator's `send`
takes at most the first 10 characters of the input (fewer if the input is
shorter), wraps them as `<comprimido>{prefix}...</comprimido>`, and delegates
exactly that string to the inner component's `send`. -/
theorem compression_send_truncates_and_wraps (c : MessageComponent) (text : String) :
    (MessageComponent.compression c).send text = c.send (compressTransform text) ∧
    (compressTransform text).data
      = "<comprimido>".data ++ text.data.take 10 ++ "...</comprimido>".data ∧
    (pyTake10 text).data.length = min 10 text.data.length :=
  ⟨rfl, rfl, by simp [pyTake10]⟩

/-- C5: `write` delegates to the proxy's real store's write if and only if
the role equals "admin"; for any other role it emits only the denial line and
does not delegate (no exception: the function is total); `read` always emits
the access-logging line naming the role and then delegates to the real
store's read, regardless of role. -/
theorem proxy_access_control (p : DatabaseProxy) :
    (Event.realWrite p.database ∈ p.write ↔ p.user_type = "admin") ∧
    (p.user_type = "admin" →
      p.write = .printed ("[Proxy] Usuario '" ++ p.user_type ++ "' escribiendo...")
        :: RealDatabase.write p.database) ∧
    (p.user_type ≠ "admin" →
      p.write = [.printed "[Proxy] Acceso denegado para escritura."] ∧
      ∀ db, Event.realWrite db ∉ p.write) ∧
    p.read = .printed ("[Proxy] Usuario '" ++ p.user_type ++ "' accediendo a lectura.")
      :: RealDatabase.read p.database := by
  by_cases h : p.user_type = "admin" <;>
    simp [DatabaseProxy.write, DatabaseProxy.read, RealDatabase.write, RealDatabase.read, h]

/-- C5 witness: a guest-role proxy's `write` emits only the denial line. -/
theorem proxy_access_control_witness :
    (DatabaseProxy.mk "invitado" 0).write
      = [Event.printed "[Proxy] Acceso denegado para escritura."] :=
  ((proxy_access_control ⟨"invitado", 0⟩).2.2.1 (by decide)).1

/-- C6: for every amount `a ≥ 0`, `pay a` emits the adaptation notice and
then invokes the wrapped external capability's `send_payment` exactly once
with the same amount `a`, and nothing else. -/
theorem adapter_pay_single_send (p : PaymentAdapter) (a : Int) (h : 0 ≤ a) :
    p.pay a = [.printed "[Adapter] Adaptando interfaz interna a API externa...",
               .externalSend a,
               .printed ("[API Externa] Pago enviado por $" ++ toString a)] ∧
    (p.pay a).count (Event.externalSend a) = 1 ∧
    ∀ b : Int, Event.externalSend b ∈ p.pay a → b = a := by
  refine ⟨rfl, ?_, ?_⟩
  · simp [PaymentAdapter.pay, ExternalPaymentAPI.send_payment, List.count_cons]
  · intro b hb
    simp [PaymentAdapter.pay, ExternalPaymentAPI.send_payment] at hb
    exact hb

/-- C6 witness: `pay 100` produces exactly the notice, one external send of
100, and the external capability's own line. -/
theorem adapter_pay_single_send_witness :
    (PaymentAdapter.mk {}).pay 100
      = [.printed "[Adapter] Adaptando interfaz interna a API externa...",
         .externalSend 100,
         .printed ("[API Externa] Pago enviado por $" ++ toString (100 : Int))] ∧
    ((PaymentAdapter.mk {}).pay 100).count (Event.externalSend 100) = 1 :=
  ⟨(adapter_pay_single_send ⟨{}⟩ 100 (by decide)).1,
   (adapter_pay_single_send ⟨{}⟩ 100 (by decide)).2.1⟩

/-- C7: `process_billing u a` performs invoice generation, then persistence,
then notification, in that fixed order, exactly once each, unconditionally:
its event trace is exactly the fachada line, the generate call and its line,
the save call and its line, and the sender call and its line. -/
theorem facade_fixed_order (f : BillingFacade) (u : String) (a : Int) :
    f.process_billing u a
      = [.printed "[Fachada] Procesando facturación...",
         .generateCall u a,
         .printed ("[Factura] Generando factura para " ++ u ++ " por $" ++ toString a),
         .saveInvoiceCall u a,
         .printed ("[BD] Guardando factura de " ++ u ++ " por $" ++ toString a),
         .senderSendCall ("Factura generada para " ++ u ++ " por $" ++ toString a),
         .printed ("[Mensaje] Enviado: "
           ++ ("Factura generada para " ++ u ++ " por $" ++ toString a))] ∧
    (f.process_billing u a).count (.generateCall u a) = 1 ∧
    (f.process_billing u a).count (.saveInvoiceCall u a) = 1 ∧
    (f.process_billing u a).count
      (.senderSendCall ("Factura generada para " ++ u ++ " por $" ++ toString a)) = 1 := by
  refine ⟨rfl, ?_, ?_, ?_⟩ <;>
    simp [BillingFacade.process_billing, InvoiceGenerator.generate,
      Database.save_invoice, MessageSender.send, List.count_cons]

/-- C8: constructing any component of any of the five groups (adapter,
facade, decorator chain, composite nodes, proxy) produces no output: every
constructor's event trace is empty. -/
theorem constructors_print_nothing :
    (∀ api, (PaymentAdapter.init api).2 = []) ∧
    BillingFacade.init.2 = [] ∧
    BasicMessage.init.2 = [] ∧
    (∀ c, (EncryptionDecorator.init c).2 = []) ∧
    (∀ c, (CompressionDecorator.init c).2 = []) ∧
    (∀ label, (Button.init label).2 = []) ∧
    (∀ name, (TextField.init name).2 = []) ∧
    Panel.init.2 = [] ∧
    (∀ children component, (Panel.add children component).2 = []) ∧
    (∀ role fresh, (DatabaseProxy.init role fresh).2.2 = []) :=
  ⟨fun _ => rfl, rfl, rfl, fun _ => rfl, fun _ => rfl, fun _ => rfl, fun _ => rfl,
   rfl, fun _ _ => rfl, fun _ _ => rfl⟩

/-- C9: `render` is total (it is a terminating Lean function on finite
trees, which are exactly the acyclic instances), and emits exactly one
output line per node: a tree of `n` nodes produces exactly `n` lines at any
depth. -/
theorem composite_render_line_count (t : UIComponent) (depth : Nat) :
    (t.render depth).length = t.size :=
  render_length_aux t depth

/-- C10: the proxy constructor takes only the role and allocates a fresh
store for itself, so two proxies constructed in sequence have distinct
stores; and every real-store read or write event a proxy produces carries
that proxy's own store, never another. -/
theorem proxy_fresh_store (r1 r2 : String) (n : Nat) (p : DatabaseProxy) :
    (DatabaseProxy.init r1 n).1.database
      ≠ (DatabaseProxy.init r2 (DatabaseProxy.init r1 n).2.1).1.database ∧
    (∀ db, Event.realRead db ∈ p.read → db = p.database) ∧
    (∀ db, Event.realWrite db ∈ p.write → db = p.database) := by
  refine ⟨?_, ?_, ?_⟩
  · simp [DatabaseProxy.init]
  · intro db hdb
    simpa [DatabaseProxy.read, RealDatabase.read] using hdb
  · intro db hdb
    by_cases h : p.user_type = "admin" <;>
      simp [DatabaseProxy.write, RealDatabase.write, h] at hdb
    exact hdb

/-- C10 witness: two proxies built in sequence from fresh id 0 get distinct
store ids, and an admin proxy's write touches exactly its own store. -/
theorem proxy_fresh_store_witness :
    (DatabaseProxy.init "invitado" 0).1.database
      ≠ (DatabaseProxy.init "admin" (DatabaseProxy.init "invitado" 0).2.1).1.database ∧
    5 = (DatabaseProxy.mk "admin" 5).database :=
  ⟨(proxy_fresh_store "invitado" "admin" 0 ⟨"admin", 5⟩).1,
   (proxy_fresh_store "invitado" "admin" 0 ⟨"admin", 5⟩).2.2 5 (by decide)⟩

end SistemaUnificado
